import Mathlib

/-!
Shallow embedding of the IoT telemetry/control backend
(`database.py`, `main.py`, `firebase_client.py`, `weather_service.py`).

Modelling conventions:
* Temperature and threshold fields are Python floats that the core never
  computes with (they are stored and echoed verbatim; the forecast formatter
  rounds to one decimal); we embed them as rationals (`Temp := Rat`).
* `datetime.utcnow()` / `datetime.now()` timestamps are embedded as a `Nat`
  clock value passed explicitly to each request handler.
* The persistent store is a `DB` record of three row lists, one per table.
  Primary keys are assigned on commit as one plus the current row count
  (tables are append-only / never deleted from).
* `last_updated` is embedded as `Option Nat` so that the presence of a stamp
  (`some t`) is directly expressible; the code never stores a null stamp.
* The Firebase mirror performs network calls that can fail; the outcome of
  the underlying HTTP request is an explicit `MirrorOutcome` parameter, and
  the background task scheduled by each handler is returned as data.
-/

namespace IOT

/-- Float-valued fields of the system, embedded as rationals: the core stores
and echoes them without arithmetic, except a one-decimal rounding in the
forecast formatter. -/
abbrev Temp := Rat

/-! ## database.py: table row models -/

/-- Row of the `telemetry` table (`database.py`, class `Telemetry`). -/
structure Telemetry where
  id : Option Nat
  device_id : String
  unit : String
  ts : Int
  temp_inside : Temp
  temp_outside : Temp
  created_at : Nat
deriving Repr, DecidableEq

/-- Row of the `acsettings` table (`database.py`, class `ACSettings`). -/
structure ACSettings where
  id : Option Nat
  mode : String
  is_on : Bool
  target_temp : Temp
  threshold_temp : Temp
  automation_enabled : Bool
  last_updated : Option Nat
deriving Repr, DecidableEq

/-- Row of the `actuatorstate` table (`database.py`, class `ActuatorState`). -/
structure ActuatorState where
  id : Option Nat
  mode_request : String
  ac : Int
  fan : Int
  temp_threshold : Temp
  end_user_ai_instruction : String
  source : String
  last_updated : Option Nat
deriving Repr, DecidableEq

/-- The persistent store: one list of rows per table. -/
structure DB where
  telemetry : List Telemetry
  acRows : List ACSettings
  actRows : List ActuatorState
deriving Repr, DecidableEq

/-- The store created by `create_db_and_tables`: all three tables empty. -/
def DB.empty : DB := ⟨[], [], []⟩

/-- A freshly constructed `ACSettings()` object: the creation defaults of
`database.py` (`mode="manual"`, `is_on=False`, `target_temp=22.0`,
`threshold_temp=25.0`, `automation_enabled=False`,
`last_updated=datetime.utcnow()`); the primary key is unset until commit. -/
def ACSettings.defaultRow (createdAt : Nat) : ACSettings :=
  { id := none, mode := "manual", is_on := false, target_temp := 22.0,
    threshold_temp := 25.0, automation_enabled := false,
    last_updated := some createdAt }

/-- A freshly constructed `ActuatorState()` object: the creation defaults of
`database.py` (`mode_request="manual"`, `ac=0`, `fan=0`, `temp_threshold=25.0`,
`end_user_ai_instruction=""`, `source="web_client"`). -/
def ActuatorState.defaultRow (createdAt : Nat) : ActuatorState :=
  { id := none, mode_request := "manual", ac := 0, fan := 0,
    temp_threshold := 25.0, end_user_ai_instruction := "",
    source := "web_client", last_updated := some createdAt }

/-! ## main.py: request body models -/

/-- Pydantic `SensorData`. -/
structure SensorData where
  sensor_id : String
  value : Temp
deriving Repr, DecidableEq

/-- Pydantic `TemperatureData`. -/
structure TemperatureData where
  inside : SensorData
  outside : SensorData
deriving Repr, DecidableEq

/-- Pydantic `TelemetryInput`. -/
structure TelemetryInput where
  device_id : String
  interval_s : Int
  unit : String
  ts : Int
  temperatures : TemperatureData
deriving Repr, DecidableEq

/-- Pydantic `ManualControlInput`; `mode` is a free-form string such as
"cool", "heat", "fan". -/
structure ManualControlInput where
  is_on : Bool
  target_temp : Temp
  mode : String
deriving Repr, DecidableEq

/-- Pydantic `AutomationInput`. -/
structure AutomationInput where
  enabled : Bool
  threshold_temp : Temp
deriving Repr, DecidableEq

/-- Pydantic `ActuatorStateInput`. -/
structure ActuatorStateInput where
  mode_request : String
  ac : Int
  fan : Int
  temp_threshold : Temp
  end_user_ai_instruction : String
  source : String
deriving Repr, DecidableEq

/-! ## firebase_client.py: the external mirror -/

/-- Outcome of the underlying HTTP request to the mirror: either it succeeds,
or the `requests` call raises an exception carrying a message. -/
inductive MirrorOutcome where
  | ok
  | fail (msg : String)
deriving Repr, DecidableEq

/-- The flattened telemetry payload built in `save_telemetry` and handed to
`firebase_client.push_telemetry`. -/
structure FirebaseTelemetry where
  device_id : String
  unit : String
  ts : Int
  temp_inside : Temp
  temp_outside : Temp
deriving Repr, DecidableEq

/-- The `data.dict()` payload handed to `firebase_client.push_command`. -/
inductive CommandDetails where
  | manual (d : ManualControlInput)
  | automation (d : AutomationInput)
  | actuator (d : ActuatorStateInput)
deriving Repr, DecidableEq

/-- A background task scheduled by a request handler via
`background_tasks.add_task`. -/
inductive MirrorTask where
  | telemetryPush (data : FirebaseTelemetry)
  | commandPush (commandType : String) (details : CommandDetails)
deriving Repr, DecidableEq

/-- The `requests.put(url, json=data, timeout=5)` call inside
`push_telemetry`: returns normally or raises. -/
def requestsPut (outcome : MirrorOutcome) : Except String Unit :=
  match outcome with
  | .ok => .ok ()
  | .fail e => .error e

/-- The `requests.post(url, json=payload, timeout=5)` call inside
`push_command`: returns normally or raises. -/
def requestsPost (outcome : MirrorOutcome) : Except String Unit :=
  match outcome with
  | .ok => .ok ()
  | .fail e => .error e

/-- `firebase_client.push_telemetry`: the HTTP call is wrapped in
try/except; on failure a log line is printed and the function still returns
normally. First component: what the function delivers to its caller
(`.ok ()` or a propagated exception); second: the printed log lines. -/
def push_telemetry (outcome : MirrorOutcome) (_data : FirebaseTelemetry) :
    Except String Unit × List String :=
  match requestsPut outcome with
  | .ok _ => (.ok (), [])
  | .error e => (.ok (), ["Firebase Sync Error: " ++ e])

/-- `firebase_client.push_command`: same try/except wrapping as
`push_telemetry`. -/
def push_command (outcome : MirrorOutcome) (_commandType : String)
    (_details : CommandDetails) : Except String Unit × List String :=
  match requestsPost outcome with
  | .ok _ => (.ok (), [])
  | .error e => (.ok (), ["Firebase Sync Error: " ++ e])

/-- Execution of a scheduled background task by the task runner. -/
def runMirror (outcome : MirrorOutcome) : MirrorTask → Except String Unit × List String
  | .telemetryPush data => push_telemetry outcome data
  | .commandPush commandType details => push_command outcome commandType details

/-! ## main.py: response shapes -/

/-- Response of `POST /api/telemetry`. -/
structure TelemetryResponse where
  status : String
  id : Option Nat
deriving Repr, DecidableEq

/-- The JSON shape returned by `GET /api/ac/settings`. -/
structure ACSettingsView where
  mode : String
  is_on : Bool
  target_temp : Temp
  threshold_temp : Temp
  automation_enabled : Bool
deriving Repr, DecidableEq

/-- The `settings` object of the `POST /api/ac/manual` response. -/
structure ManualSettingsView where
  mode : String
  is_on : Bool
  target_temp : Temp
deriving Repr, DecidableEq

/-- Response of `POST /api/ac/manual`. -/
structure ManualControlResponse where
  status : String
  settings : ManualSettingsView
deriving Repr, DecidableEq

/-- The `settings` object of the `POST /api/ac/automation` response. -/
structure AutomationSettingsView where
  automation_enabled : Bool
  threshold_temp : Temp
  mode : String
deriving Repr, DecidableEq

/-- Response of `POST /api/ac/automation`. -/
structure AutomationResponse where
  status : String
  settings : AutomationSettingsView
deriving Repr, DecidableEq

/-- The JSON shape returned by `GET /api/actuator/state`, and the `api_state`
object of the `POST /api/actuator/state` response. -/
structure ActuatorStateView where
  mode_request : String
  ac : Int
  fan : Int
  temp_threshold : Temp
  end_user_ai_instruction : String
  source : String
deriving Repr, DecidableEq

/-- Response of `POST /api/actuator/state`. -/
structure ActuatorResponse where
  status : String
  api_state : ActuatorStateView
deriving Repr, DecidableEq

/-! ## main.py: request handlers -/

/-- Session commit for the AC-settings upserts: a row found by
`select(ACSettings).limit(1)` is updated in place at its position; a freshly
added row is inserted and assigned the next primary key (the table only ever
receives an insert while empty, so the key is 1). -/
def commitAC (st : DB) (r : ACSettings) : DB :=
  match st.acRows with
  | [] => { st with acRows := [{ r with id := some 1 }] }
  | _ :: rest => { st with acRows := r :: rest }

/-- Session commit for the actuator-state upsert, as in `commitAC`. -/
def commitAct (st : DB) (r : ActuatorState) : DB :=
  match st.actRows with
  | [] => { st with actRows := [{ r with id := some 1 }] }
  | _ :: rest => { st with actRows := r :: rest }

/-- `POST /api/telemetry` (`save_telemetry`): appends a new `Telemetry` row
(primary key assigned on commit), schedules a flattened mirror push, returns
`{status:"ok", id}`. -/
def save_telemetry (data : TelemetryInput) (now : Nat) (st : DB) :
    TelemetryResponse × DB × MirrorTask :=
  let telemetry : Telemetry :=
    { id := some (st.telemetry.length + 1),
      device_id := data.device_id,
      unit := data.unit,
      ts := data.ts,
      temp_inside := data.temperatures.inside.value,
      temp_outside := data.temperatures.outside.value,
      created_at := now }
  let firebase_data : FirebaseTelemetry :=
    { device_id := data.device_id,
      unit := data.unit,
      ts := data.ts,
      temp_inside := data.temperatures.inside.value,
      temp_outside := data.temperatures.outside.value }
  ({ status := "ok", id := some (st.telemetry.length + 1) },
   { st with telemetry := st.telemetry ++ [telemetry] },
   .telemetryPush firebase_data)

/-- The boolean order used by `ORDER BY ts DESC`: `a` comes no later than `b`
in the output when `a.ts ≥ b.ts`. -/
def tsDescLe (a b : Telemetry) : Bool := b.ts ≤ a.ts

/-- `GET /api/data` (`get_history`): the stored telemetry ordered by sample
timestamp descending, limited to 50 rows. The SQL `ORDER BY ... LIMIT 50` is
embedded as a stable sort followed by `take 50`. -/
def get_history (st : DB) : List Telemetry :=
  (st.telemetry.mergeSort tsDescLe).take 50

/-- `POST /api/ac/manual` (`set_manual_control`): get-or-create the settings
row, set `mode := "manual"`, power and target temperature from input, stamp
`last_updated`, commit, schedule a `manual_update` mirror command, and echo
`{mode, is_on, target_temp}` from the row. -/
def set_manual_control (data : ManualControlInput) (now : Nat) (st : DB) :
    ManualControlResponse × DB × MirrorTask :=
  let ac_settings := st.acRows.headD (ACSettings.defaultRow now)
  let ac_settings := { ac_settings with
    mode := "manual",
    is_on := data.is_on,
    target_temp := data.target_temp,
    last_updated := some now }
  ({ status := "ok",
     settings := { mode := ac_settings.mode, is_on := ac_settings.is_on,
                   target_temp := ac_settings.target_temp } },
   commitAC st ac_settings,
   .commandPush "manual_update" (.manual data))

/-- `POST /api/ac/automation` (`set_automation`): get-or-create the settings
row, set `automation_enabled` and `threshold_temp` from input, force
`mode := "auto"` when enabling (leave `mode` alone otherwise), stamp
`last_updated`, commit, schedule an `automation_update` mirror command, and
echo `{automation_enabled, threshold_temp, mode}` from the row. -/
def set_automation (data : AutomationInput) (now : Nat) (st : DB) :
    AutomationResponse × DB × MirrorTask :=
  let ac_settings := st.acRows.headD (ACSettings.defaultRow now)
  let ac_settings := { ac_settings with
    automation_enabled := data.enabled,
    threshold_temp := data.threshold_temp,
    mode := if data.enabled then "auto" else ac_settings.mode,
    last_updated := some now }
  ({ status := "ok",
     settings := { automation_enabled := ac_settings.automation_enabled,
                   threshold_temp := ac_settings.threshold_temp,
                   mode := ac_settings.mode } },
   commitAC st ac_settings,
   .commandPush "automation_update" (.automation data))

/-- `GET /api/ac/settings` (`get_ac_settings`): the current settings row, or
the literal default dictionary of `main.py` when none exists. -/
def get_ac_settings (st : DB) : ACSettingsView :=
  match st.acRows.head? with
  | none =>
    { mode := "manual", is_on := false, target_temp := 22.0,
      threshold_temp := 25.0, automation_enabled := false }
  | some r =>
    { mode := r.mode, is_on := r.is_on, target_temp := r.target_temp,
      threshold_temp := r.threshold_temp,
      automation_enabled := r.automation_enabled }

/-- `GET /api/actuator/state` (`get_actuator_state`): the current actuator
row, or the literal default dictionary of `main.py` when none exists. -/
def get_actuator_state (st : DB) : ActuatorStateView :=
  match st.actRows.head? with
  | none =>
    { mode_request := "manual", ac := 0, fan := 0, temp_threshold := 25.0,
      end_user_ai_instruction := "", source := "web_client" }
  | some r =>
    { mode_request := r.mode_request, ac := r.ac, fan := r.fan,
      temp_threshold := r.temp_threshold,
      end_user_ai_instruction := r.end_user_ai_instruction,
      source := r.source }

/-- `POST /api/actuator/state` (`set_actuator_state`): get-or-create the
actuator row, overwrite all six fields from input, stamp `last_updated`,
commit, schedule an `actuator_update` mirror command, and echo all fields. -/
def set_actuator_state (data : ActuatorStateInput) (now : Nat) (st : DB) :
    ActuatorResponse × DB × MirrorTask :=
  let state := st.actRows.headD (ActuatorState.defaultRow now)
  let state := { state with
    mode_request := data.mode_request,
    ac := data.ac,
    fan := data.fan,
    temp_threshold := data.temp_threshold,
    end_user_ai_instruction := data.end_user_ai_instruction,
    source := data.source,
    last_updated := some now }
  ({ status := "ok",
     api_state := { mode_request := state.mode_request, ac := state.ac,
                    fan := state.fan, temp_threshold := state.temp_threshold,
                    end_user_ai_instruction := state.end_user_ai_instruction,
                    source := state.source } },
   commitAct st state,
   .commandPush "actuator_update" (.actuator data))

/-! ## Sequences of state-changing requests -/

/-- A state-changing request to the backend. -/
inductive Op where
  | telemetry (d : TelemetryInput)
  | manual (d : ManualControlInput)
  | automation (d : AutomationInput)
  | actuator (d : ActuatorStateInput)
deriving Repr, DecidableEq

/-- Any of the four response shapes. -/
inductive Response where
  | telemetryR (r : TelemetryResponse)
  | manualR (r : ManualControlResponse)
  | automationR (r : AutomationResponse)
  | actuatorR (r : ActuatorResponse)
deriving Repr, DecidableEq

/-- Dispatch one request, at clock value `now`, against store `st`. -/
def handle (st : DB) : Op × Nat → Response × DB × MirrorTask
  | (.telemetry d, now) =>
    let (r, st', task) := save_telemetry d now st
    (.telemetryR r, st', task)
  | (.manual d, now) =>
    let (r, st', task) := set_manual_control d now st
    (.manualR r, st', task)
  | (.automation d, now) =>
    let (r, st', task) := set_automation d now st
    (.automationR r, st', task)
  | (.actuator d, now) =>
    let (r, st', task) := set_actuator_state d now st
    (.actuatorR r, st', task)

/-- A full request cycle including the background mirror push: the handler
computes response, new store state and the scheduled task; then the task
runner executes the push, whose HTTP call has outcome `outcome`. -/
def handleWithMirror (outcome : MirrorOutcome) (st : DB) (o : Op × Nat) :
    Response × DB × (Except String Unit × List String) :=
  let (r, st', task) := handle st o
  (r, st', runMirror outcome task)

/-- The state reached by a sequence of requests. -/
def step (st : DB) (o : Op × Nat) : DB := (handle st o).2.1

/-- Run a finite sequence of timestamped requests from `st`. -/
def run (ops : List (Op × Nat)) (st : DB) : DB := ops.foldl step st

/-! ## weather_service.py: forecast formatting -/

/-- One entry of the raw OpenWeatherMap forecast `list`. -/
structure ForecastItem where
  dt : Nat
  dt_txt : String
  main_temp : Temp
  weather_description : String
  weather_icon : String
deriving Repr, DecidableEq

/-- The raw OpenWeatherMap forecast response (the parts read by
`format_forecast`). -/
structure RawForecast where
  city_name : String
  list : List ForecastItem
deriving Repr, DecidableEq

/-- `strftime("%Y-%m-%d")` of `datetime.fromtimestamp(dt)`, embedded as the
calendar-day index (days since the epoch): two timestamps format to the same
date string exactly when they fall on the same calendar day. -/
def strftimeDate (dt : Nat) : Nat := dt / 86400

/-- The weekday abbreviations, indexed from the epoch day: 1970-01-01 was a
Thursday. -/
def dayNames : List String := ["Thu", "Fri", "Sat", "Sun", "Mon", "Tue", "Wed"]

/-- `strftime("%a")` of `datetime.fromtimestamp(dt)`. -/
def strftimeDayAbbrev (dt : Nat) : String :=
  dayNames.getD (dt / 86400 % 7) ""

/-- Python's substring test `needle in hay`. -/
def strContains (hay needle : String) : Bool :=
  hay.toList.tails.any fun suf => needle.toList.isPrefixOf suf

/-- One formatted forecast entry (`date` carries the `%Y-%m-%d` date string,
embedded as in `strftimeDate`). -/
structure ForecastEntry where
  date : Nat
  day_name : String
  temperature : Temp
  description : String
  icon : String
deriving Repr, DecidableEq

/-- Python `round(x, 1)`. Ties are resolved to the nearest-half-up integer
tenth rather than banker's rounding; no property proved here depends on the
tie-breaking rule. -/
def round1 (x : Temp) : Temp := ((round (x * 10) : Int) : Temp) / 10

/-- The loop of `format_forecast`: walk the raw items accumulating
`seen_dates` (the Python set, embedded as a duplicate-free insertion list:
only membership and size are consulted) and `daily_forecasts`; an item whose
date is unseen is appended when its text contains "12:00:00" or fewer than 5
dates are seen; the loop stops once 5 entries are collected. -/
def formatLoop : List ForecastItem → List Nat → List ForecastEntry → List ForecastEntry
  | [], _, daily_forecasts => daily_forecasts
  | item :: rest, seen_dates, daily_forecasts =>
    let date_str := strftimeDate item.dt
    let next :=
      if date_str ∈ seen_dates then (seen_dates, daily_forecasts)
      else if strContains item.dt_txt "12:00:00" || seen_dates.length < 5 then
        (seen_dates ++ [date_str],
         daily_forecasts ++
           [{ date := date_str,
              day_name := strftimeDayAbbrev item.dt,
              temperature := round1 item.main_temp,
              description := item.weather_description,
              icon := item.weather_icon }])
      else (seen_dates, daily_forecasts)
    if 5 ≤ next.2.length then next.2
    else formatLoop rest next.1 next.2

/-- The formatted forecast response. -/
structure ForecastResult where
  location : String
  forecasts : List ForecastEntry
deriving Repr, DecidableEq

/-- `weather_service.format_forecast`: run the daily-extraction loop over the
raw list and return at most 5 entries. -/
def format_forecast (raw : RawForecast) : ForecastResult :=
  { location := raw.city_name,
    forecasts := (formatLoop raw.list [] []).take 5 }

/-! ## Helper lemmas -/

theorem commitAC_telemetry (st : DB) (r : ACSettings) :
    (commitAC st r).telemetry = st.telemetry := by
  unfold commitAC; cases st.acRows <;> rfl

theorem commitAC_actRows (st : DB) (r : ACSettings) :
    (commitAC st r).actRows = st.actRows := by
  unfold commitAC; cases st.acRows <;> rfl

theorem commitAct_telemetry (st : DB) (r : ActuatorState) :
    (commitAct st r).telemetry = st.telemetry := by
  unfold commitAct; cases st.actRows <;> rfl

theorem commitAct_acRows (st : DB) (r : ActuatorState) :
    (commitAct st r).acRows = st.acRows := by
  unfold commitAct; cases st.actRows <;> rfl

theorem commitAC_length (st : DB) (r : ACSettings) :
    (commitAC st r).acRows.length = max 1 st.acRows.length := by
  unfold commitAC; cases st.acRows <;> simp

theorem commitAct_length (st : DB) (r : ActuatorState) :
    (commitAct st r).actRows.length = max 1 st.actRows.length := by
  unfold commitAct; cases st.actRows <;> simp

theorem step_acRows_length (st : DB) (o : Op × Nat) :
    (step st o).acRows.length ≤ max 1 st.acRows.length := by
  obtain ⟨op, now⟩ := o
  cases op with
  | telemetry d => simp [step, handle, save_telemetry]
  | manual d => simp [step, handle, set_manual_control, commitAC_length]
  | automation d => simp [step, handle, set_automation, commitAC_length]
  | actuator d => simp [step, handle, set_actuator_state, commitAct_acRows]

theorem step_actRows_length (st : DB) (o : Op × Nat) :
    (step st o).actRows.length ≤ max 1 st.actRows.length := by
  obtain ⟨op, now⟩ := o
  cases op with
  | telemetry d => simp [step, handle, save_telemetry]
  | manual d => simp [step, handle, set_manual_control, commitAC_actRows]
  | automation d => simp [step, handle, set_automation, commitAC_actRows]
  | actuator d => simp [step, handle, set_actuator_state, commitAct_length]

theorem run_singleton (ops : List (Op × Nat)) (st : DB)
    (h1 : st.acRows.length ≤ 1) (h2 : st.actRows.length ≤ 1) :
    (run ops st).acRows.length ≤ 1 ∧ (run ops st).actRows.length ≤ 1 := by
  induction ops generalizing st with
  | nil => exact ⟨h1, h2⟩
  | cons o rest ih =>
    apply ih
    · have := step_acRows_length st o; omega
    · have := step_actRows_length st o; omega

theorem step_mode_ok (st : DB) (o : Op × Nat)
    (h : ∀ r ∈ st.acRows, r.mode = "manual" ∨ r.mode = "auto") :
    ∀ r ∈ (step st o).acRows, r.mode = "manual" ∨ r.mode = "auto" := by
  obtain ⟨op, now⟩ := o
  obtain ⟨tel, ac, act⟩ := st
  cases op with
  | telemetry d => exact h
  | manual d =>
    cases ac with
    | nil => intro r hr; simp [step, handle, set_manual_control, commitAC] at hr; simp [hr]
    | cons a t =>
      intro r hr
      simp [step, handle, set_manual_control, commitAC] at hr
      rcases hr with rfl | hr
      · exact Or.inl rfl
      · exact h r (List.mem_cons_of_mem a hr)
  | automation d =>
    cases ac with
    | nil =>
      intro r hr
      simp [step, handle, set_automation, commitAC] at hr
      subst hr
      cases hd : d.enabled <;> simp [hd, ACSettings.defaultRow]
    | cons a t =>
      intro r hr
      simp [step, handle, set_automation, commitAC] at hr
      rcases hr with rfl | hr
      · cases hd : d.enabled with
        | true => simp [hd]
        | false =>
          simp [hd]
          exact h a (List.mem_cons_self a t)
      · exact h r (List.mem_cons_of_mem a hr)
  | actuator d =>
    intro r hr
    simp only [step, handle, set_actuator_state, commitAct_acRows] at hr
    exact h r hr

theorem run_mode_ok (ops : List (Op × Nat)) (st : DB)
    (h : ∀ r ∈ st.acRows, r.mode = "manual" ∨ r.mode = "auto") :
    ∀ r ∈ (run ops st).acRows, r.mode = "manual" ∨ r.mode = "auto" := by
  induction ops generalizing st with
  | nil => exact h
  | cons o rest ih => exact ih (step st o) (step_mode_ok st o h)

theorem tsDescLe_trans (a b c : Telemetry) :
    tsDescLe a b → tsDescLe b c → tsDescLe a c := by
  simp only [tsDescLe, decide_eq_true_eq]
  omega

theorem tsDescLe_total (a b : Telemetry) : tsDescLe a b || tsDescLe b a := by
  simp only [tsDescLe, Bool.or_eq_true, decide_eq_true_eq]
  omega

theorem sorted_take_countP (l : List Telemetry)
    (hl : l.Pairwise (fun a b => b.ts ≤ a.ts)) (n : Nat) :
    ∀ r ∈ l.take n, l.countP (fun s => decide (r.ts < s.ts)) < n := by
  induction l generalizing n with
  | nil => intro r hr; simp at hr
  | cons a t ih =>
    intro r hr
    cases n with
    | zero => simp at hr
    | succ m =>
      obtain ⟨ha, ht⟩ := List.pairwise_cons.mp hl
      rw [List.take_succ_cons, List.mem_cons] at hr
      rw [List.countP_cons]
      rcases hr with rfl | hr
      · have h0 : t.countP (fun s => decide (r.ts < s.ts)) = 0 := by
          rw [List.countP_eq_zero]
          intro s hs
          have := ha s hs
          simp only [decide_eq_true_eq]
          omega
        rw [h0]
        simp only [decide_eq_true_eq]
        have : ¬ (r.ts < r.ts) := by omega
        simp [this]
      · have hlt := ih ht m r hr
        have : (if decide (r.ts < a.ts) = true then 1 else 0) ≤ 1 := by
          split <;> omega
        omega

/-! ## Claim theorems -/

/-- C1: starting from the empty store, after any finite sequence of requests
(including the three upserts in any order) at most one `ACSettings` row and at
most one `ActuatorState` row exist; moreover each single request either keeps
the row count of each singleton table or brings it from zero to one, never
beyond. -/
theorem singleton_rows_invariant :
    (∀ ops : List (Op × Nat),
      (run ops DB.empty).acRows.length ≤ 1 ∧ (run ops DB.empty).actRows.length ≤ 1)
    ∧ ∀ (st : DB) (o : Op × Nat),
      (step st o).acRows.length ≤ max 1 st.acRows.length ∧
      (step st o).actRows.length ≤ max 1 st.actRows.length :=
  ⟨fun ops => run_singleton ops DB.empty (by simp [DB.empty]) (by simp [DB.empty]),
   fun st o => ⟨step_acRows_length st o, step_actRows_length st o⟩⟩

/-- C2: an automation update applied to any prior store state sets
`automation_enabled` and `threshold_temp` from the input, sets the stored mode
to "auto" exactly when `enabled` is true and otherwise leaves it at the prior
row's mode (the creation default "manual" when no row existed), and preserves
the prior `is_on` and `target_temp`. -/
theorem automation_update_semantics (d : AutomationInput) (now : Nat) (st : DB) :
    ∃ r rest, (set_automation d now st).2.1.acRows = r :: rest ∧
      r.automation_enabled = d.enabled ∧
      r.threshold_temp = d.threshold_temp ∧
      r.mode = (if d.enabled then "auto"
                else (st.acRows.headD (ACSettings.defaultRow now)).mode) ∧
      r.is_on = (st.acRows.headD (ACSettings.defaultRow now)).is_on ∧
      r.target_temp = (st.acRows.headD (ACSettings.defaultRow now)).target_temp := by
  obtain ⟨tel, ac, act⟩ := st
  cases ac with
  | nil => exact ⟨_, _, rfl, rfl, rfl, rfl, rfl, rfl⟩
  | cons a t => exact ⟨_, _, rfl, rfl, rfl, rfl, rfl, rfl⟩

/-- C3: after a manual-control update applied to any store state the stored
mode is exactly "manual", and the input's free-form `mode` string has no
effect on the resulting store state. -/
theorem manual_update_forces_manual_mode (d : ManualControlInput) (now : Nat) (st : DB) :
    (∃ r rest, (set_manual_control d now st).2.1.acRows = r :: rest ∧
      r.mode = "manual") ∧
    ∀ m : String,
      (set_manual_control { d with mode := m } now st).2.1 =
      (set_manual_control d now st).2.1 := by
  constructor
  · obtain ⟨tel, ac, act⟩ := st
    cases ac with
    | nil => exact ⟨_, _, rfl, rfl⟩
    | cons a t => exact ⟨_, _, rfl, rfl⟩
  · intro m; rfl

/-- C4: reading either settings endpoint before any write returns the literal
default shape of `main.py`, field-for-field equal to the creation defaults of
the corresponding row model; and reading after exactly one write (of each of
the three kinds) returns the written values, the stored row carrying the
write-time `last_updated` stamp. -/
theorem default_read_and_first_write (t : Nat) (dm : ManualControlInput)
    (da : AutomationInput) (dact : ActuatorStateInput) :
    (get_ac_settings DB.empty =
      { mode := "manual", is_on := false, target_temp := 22.0,
        threshold_temp := 25.0, automation_enabled := false }) ∧
    ((get_ac_settings DB.empty).mode = (ACSettings.defaultRow t).mode ∧
     (get_ac_settings DB.empty).is_on = (ACSettings.defaultRow t).is_on ∧
     (get_ac_settings DB.empty).target_temp = (ACSettings.defaultRow t).target_temp ∧
     (get_ac_settings DB.empty).threshold_temp = (ACSettings.defaultRow t).threshold_temp ∧
     (get_ac_settings DB.empty).automation_enabled = (ACSettings.defaultRow t).automation_enabled) ∧
    (get_actuator_state DB.empty =
      { mode_request := "manual", ac := 0, fan := 0, temp_threshold := 25.0,
        end_user_ai_instruction := "", source := "web_client" }) ∧
    ((get_actuator_state DB.empty).mode_request = (ActuatorState.defaultRow t).mode_request ∧
     (get_actuator_state DB.empty).ac = (ActuatorState.defaultRow t).ac ∧
     (get_actuator_state DB.empty).fan = (ActuatorState.defaultRow t).fan ∧
     (get_actuator_state DB.empty).temp_threshold = (ActuatorState.defaultRow t).temp_threshold ∧
     (get_actuator_state DB.empty).end_user_ai_instruction = (ActuatorState.defaultRow t).end_user_ai_instruction ∧
     (get_actuator_state DB.empty).source = (ActuatorState.defaultRow t).source) ∧
    (get_ac_settings (set_manual_control dm t DB.empty).2.1 =
      { mode := "manual", is_on := dm.is_on, target_temp := dm.target_temp,
        threshold_temp := 25.0, automation_enabled := false } ∧
     ∃ r, (set_manual_control dm t DB.empty).2.1.acRows = [r] ∧
       r.last_updated = some t) ∧
    (get_ac_settings (set_automation da t DB.empty).2.1 =
      { mode := if da.enabled then "auto" else "manual", is_on := false,
        target_temp := 22.0, threshold_temp := da.threshold_temp,
        automation_enabled := da.enabled } ∧
     ∃ r, (set_automation da t DB.empty).2.1.acRows = [r] ∧
       r.last_updated = some t) ∧
    (get_actuator_state (set_actuator_state dact t DB.empty).2.1 =
      { mode_request := dact.mode_request, ac := dact.ac, fan := dact.fan,
        temp_threshold := dact.temp_threshold,
        end_user_ai_instruction := dact.end_user_ai_instruction,
        source := dact.source } ∧
     ∃ r, (set_actuator_state dact t DB.empty).2.1.actRows = [r] ∧
       r.last_updated = some t) :=
  ⟨rfl, ⟨rfl, rfl, rfl, rfl, rfl⟩, rfl, ⟨rfl, rfl, rfl, rfl, rfl, rfl⟩,
   ⟨rfl, _, rfl, rfl⟩, ⟨rfl, _, rfl, rfl⟩, ⟨rfl, _, rfl, rfl⟩⟩

/-- C5 counterexample: the claim "every successful settings upsert returns
the full resulting state of the singleton record" is false: the same
manual-control request applied to two stores whose settings rows differ in
`threshold_temp` yields identical responses but different resulting states,
so the response does not carry the full state. -/
theorem upsert_response_not_full_state :
    ((set_manual_control ⟨true, 24.0, "cool"⟩ 10 DB.empty).1 =
     (set_manual_control ⟨true, 24.0, "cool"⟩ 10
       (set_automation ⟨false, 30.0⟩ 5 DB.empty).2.1).1) ∧
    ((set_manual_control ⟨true, 24.0, "cool"⟩ 10 DB.empty).2.1 ≠
     (set_manual_control ⟨true, 24.0, "cool"⟩ 10
       (set_automation ⟨false, 30.0⟩ 5 DB.empty).2.1).2.1) := by
  refine ⟨rfl, fun h => ?_⟩
  have h2 : (25.0 : Temp) = 30.0 :=
    congrArg (fun st => (st.acRows.headD (ACSettings.defaultRow 0)).threshold_temp) h
  norm_num at h2

/-- C5 as amended: every successful settings upsert stamps the stored row's
`last_updated` to the current time, persists the updated row as the first row
of its table, reports status "ok", and returns a response echoing the stored
values of the fields it includes — `{mode, is_on, target_temp}` for manual,
`{automation_enabled, threshold_temp, mode}` for automation, and all six
actuator fields for the actuator update. -/
theorem upsert_stamps_persists_echoes (dm : ManualControlInput)
    (da : AutomationInput) (dact : ActuatorStateInput) (now : Nat) (st : DB) :
    (∃ r rest, (set_manual_control dm now st).2.1.acRows = r :: rest ∧
      r.last_updated = some now ∧
      (set_manual_control dm now st).1.status = "ok" ∧
      (set_manual_control dm now st).1.settings =
        { mode := r.mode, is_on := r.is_on, target_temp := r.target_temp }) ∧
    (∃ r rest, (set_automation da now st).2.1.acRows = r :: rest ∧
      r.last_updated = some now ∧
      (set_automation da now st).1.status = "ok" ∧
      (set_automation da now st).1.settings =
        { automation_enabled := r.automation_enabled,
          threshold_temp := r.threshold_temp, mode := r.mode }) ∧
    (∃ r rest, (set_actuator_state dact now st).2.1.actRows = r :: rest ∧
      r.last_updated = some now ∧
      (set_actuator_state dact now st).1.status = "ok" ∧
      (set_actuator_state dact now st).1.api_state =
        { mode_request := r.mode_request, ac := r.ac, fan := r.fan,
          temp_threshold := r.temp_threshold,
          end_user_ai_instruction := r.end_user_ai_instruction,
          source := r.source }) := by
  obtain ⟨tel, ac, act⟩ := st
  refine ⟨?_, ?_, ?_⟩
  · cases ac with
    | nil => exact ⟨_, _, rfl, rfl, rfl, rfl⟩
    | cons a t => exact ⟨_, _, rfl, rfl, rfl, rfl⟩
  · cases ac with
    | nil => exact ⟨_, _, rfl, rfl, rfl, rfl⟩
    | cons a t => exact ⟨_, _, rfl, rfl, rfl, rfl⟩
  · cases act with
    | nil => exact ⟨_, _, rfl, rfl, rfl, rfl⟩
    | cons a t => exact ⟨_, _, rfl, rfl, rfl, rfl⟩

/-- C6: for every stored telemetry set, `get_history` returns at most 50
records, ordered by descending sample timestamp `ts`, and every returned
record has fewer than 50 strictly more recent records in the store — it is
never older than the 50th most recent by that ordering. -/
theorem history_most_recent_50 (st : DB) :
    (get_history st).length ≤ 50 ∧
    (get_history st).Pairwise (fun a b => b.ts ≤ a.ts) ∧
    ∀ r ∈ get_history st,
      st.telemetry.countP (fun s => decide (r.ts < s.ts)) < 50 := by
  have hsorted : (st.telemetry.mergeSort tsDescLe).Pairwise
      (fun a b => b.ts ≤ a.ts) := by
    have h := List.sorted_mergeSort tsDescLe_trans tsDescLe_total st.telemetry
    exact h.imp fun hab => by simpa [tsDescLe] using hab
  refine ⟨?_, ?_, ?_⟩
  · simp only [get_history, List.length_take]
    omega
  · exact hsorted.sublist (List.take_sublist _ _)
  · intro r hr
    have hcount := sorted_take_countP _ hsorted 50 r hr
    have hperm := (List.mergeSort_perm st.telemetry tsDescLe).countP_eq
      (fun s => decide (r.ts < s.ts))
    omega

/-- C7: the actuator-state upsert is an unconditional full overwrite: for any
input and any prior store state, the stored row carries exactly the posted
six fields (plus the time stamp), and a subsequent read returns exactly the
posted field values verbatim. -/
theorem actuator_roundtrip (d : ActuatorStateInput) (now : Nat) (st : DB) :
    get_actuator_state (set_actuator_state d now st).2.1 =
      { mode_request := d.mode_request, ac := d.ac, fan := d.fan,
        temp_threshold := d.temp_threshold,
        end_user_ai_instruction := d.end_user_ai_instruction,
        source := d.source } ∧
    ∃ r rest, (set_actuator_state d now st).2.1.actRows = r :: rest ∧
      r.mode_request = d.mode_request ∧ r.ac = d.ac ∧ r.fan = d.fan ∧
      r.temp_threshold = d.temp_threshold ∧
      r.end_user_ai_instruction = d.end_user_ai_instruction ∧
      r.source = d.source ∧ r.last_updated = some now := by
  obtain ⟨tel, ac, act⟩ := st
  cases act with
  | nil => exact ⟨rfl, _, _, rfl, rfl, rfl, rfl, rfl, rfl, rfl, rfl⟩
  | cons a t => exact ⟨rfl, _, _, rfl, rfl, rfl, rfl, rfl, rfl, rfl, rfl⟩

/-- C8: at a raw forecast whose first sample of a day is not the midday one,
`format_forecast` keeps that first sample and drops the midday (12:00)
sample: the `"12:00:00"` test in the loop is unreachable (the seen-dates set
and the output grow in lockstep and the loop stops at 5 entries), so the
code does not prefer the midday sample as its own docstring states. -/
theorem forecast_keeps_first_sample_not_midday :
    ((format_forecast
      { city_name := "Hanoi",
        list := [
          { dt := 9 * 3600, dt_txt := "1970-01-01 09:00:00", main_temp := 20,
            weather_description := "cloudy", weather_icon := "04d" },
          { dt := 12 * 3600, dt_txt := "1970-01-01 12:00:00", main_temp := 30,
            weather_description := "clear", weather_icon := "01d" } ] }).forecasts.map
        fun e => (e.date, e.day_name, e.description, e.icon)) =
      [(0, "Thu", "cloudy", "04d")] := by
  decide

/-- C9: the mirror push operations catch any failure of the underlying HTTP
call and deliver a normal return (never an exception) to the task runner, and
the response and persisted state of every request are identical whatever the
mirror outcome — a mirror failure never changes the core's result. -/
theorem mirror_failure_isolated (o1 o2 : MirrorOutcome) (st : DB) (o : Op × Nat) :
    (handleWithMirror o1 st o).1 = (handleWithMirror o2 st o).1 ∧
    (handleWithMirror o1 st o).2.1 = (handleWithMirror o2 st o).2.1 ∧
    ∀ (outcome : MirrorOutcome) (task : MirrorTask),
      (runMirror outcome task).1 = .ok () := by
  refine ⟨?_, ?_, ?_⟩
  · rcases h : handle st o with ⟨r, st', task⟩
    simp [handleWithMirror, h]
  · rcases h : handle st o with ⟨r, st', task⟩
    simp [handleWithMirror, h]
  · intro outcome task
    cases outcome <;> cases task <;> rfl

/-- C10: starting from the empty store, after any finite sequence of requests
every stored `ACSettings` mode is "manual" or "auto"; the settings read and
the two settings-write responses also only ever show those two values, so the
free-form mode string of a manual-control request never appears in stored
state or responses. -/
theorem mode_vocabulary_invariant (ops : List (Op × Nat)) :
    (∀ r ∈ (run ops DB.empty).acRows, r.mode = "manual" ∨ r.mode = "auto") ∧
    ((get_ac_settings (run ops DB.empty)).mode = "manual" ∨
     (get_ac_settings (run ops DB.empty)).mode = "auto") ∧
    (∀ (d : ManualControlInput) (now : Nat),
      (set_manual_control d now (run ops DB.empty)).1.settings.mode = "manual") ∧
    ∀ (d : AutomationInput) (now : Nat),
      (set_automation d now (run ops DB.empty)).1.settings.mode = "manual" ∨
      (set_automation d now (run ops DB.empty)).1.settings.mode = "auto" := by
  have hrows := run_mode_ok ops DB.empty (by simp [DB.empty])
  refine ⟨hrows, ?_, fun d now => rfl, ?_⟩
  · cases h : (run ops DB.empty).acRows with
    | nil => simp [get_ac_settings, h]
    | cons a t =>
      have := hrows a (by simp [h])
      simp [get_ac_settings, h]
      exact this
  · intro d now
    cases hd : d.enabled with
    | true =>
      right
      simp [set_automation, hd]
    | false =>
      cases h : (run ops DB.empty).acRows with
      | nil =>
        left
        simp [set_automation, hd, h, ACSettings.defaultRow]
      | cons a t =>
        have := hrows a (by simp [h])
        simp [set_automation, hd, h]
        exact this

end IOT
